import Mathlib

/-!
Verification of the sales-manager inventory ledger (`src/app.py`).

The relational store (SQLite tables `merchandise`, `consumers`, `sales`) is
embedded as lists of typed rows; each Flask handler that the claims touch is
translated into a pure function from the database state and the (already
parsed) request parameters to a response together with the resulting state.
Identifiers are modelled as `Int` (SQLite rowids are signed integers),
quantities as `Int`, and `REAL` prices as `Rat`; the single ambient clock
(`CURRENT_TIMESTAMP`) is a `DateTime` field of the state.
-/

namespace SalesManager

/-- A calendar timestamp, standing for both Python's `datetime.now()` and
SQLite's `CURRENT_TIMESTAMP` (a single ambient clock is modelled). -/
structure DateTime where
  year : Nat
  month : Nat
  day : Nat
  hour : Nat
  minute : Nat
  second : Nat
deriving DecidableEq, Repr

def pad2 (n : Nat) : String :=
  if n < 10 then "0" ++ toString n else toString n

def pad4 (n : Nat) : String :=
  if n < 10 then "000" ++ toString n
  else if n < 100 then "00" ++ toString n
  else if n < 1000 then "0" ++ toString n
  else toString n

/-- `strftime('%Y-%m-%d')` on a date. -/
def dateString (y m d : Nat) : String :=
  pad4 y ++ "-" ++ pad2 m ++ "-" ++ pad2 d

/-- `strftime('%Y-%m-%d %H:%M:%S')`, the `TIMESTAMP` column format. -/
def DateTime.toTimestamp (t : DateTime) : String :=
  dateString t.year t.month t.day ++ " " ++
    pad2 t.hour ++ ":" ++ pad2 t.minute ++ ":" ++ pad2 t.second

/-- A row of the `merchandise` table (`init_db`, `src/app.py:41-51`). -/
structure Merch where
  id : Int
  name : String
  description : Option String
  quantity : Int
  price : Rat
  created_at : String
  updated_at : String
deriving DecidableEq, Repr

/-- A row of the `consumers` table (`src/app.py:54-64`); `phone`, `address`,
`notes` and the timestamps are nullable (added by migration on legacy stores). -/
structure Consumer where
  id : Int
  name : String
  phone : Option String
  address : Option String
  notes : Option String
  created_at : Option String
  updated_at : Option String
deriving DecidableEq, Repr

/-- A row of the `sales` table (`src/app.py:67-79`); `consumer_id` is nullable
(legacy-schema rows). -/
structure Sale where
  id : Int
  merchandise_id : Int
  consumer_id : Option Int
  quantity_sold : Int
  unit_price : Rat
  total_price : Rat
  sale_date : String
deriving DecidableEq, Repr

/-- The database state: the three tables, the `AUTOINCREMENT` counter of the
`sales` table, and the ambient clock. -/
structure DB where
  merchandise : List Merch
  consumers : List Consumer
  sales : List Sale
  nextSaleId : Int
  now : DateTime
deriving DecidableEq, Repr

def nowString (db : DB) : String := db.now.toTimestamp

/-- Structured failures, following the spec taxonomy (§7); each handler branch
in `src/app.py` is mapped to the taxonomy entry its message and HTTP status
realise (404 is `notFound`; the 400s split into `invalidArgument` and
`conflict` by message; a 500 from an unhandled exception is `serverError`). -/
inductive ApiError where
  | notFound (msg : String)
  | invalidArgument (msg : String)
  | conflict (msg : String)
  | serverError (msg : String)
deriving DecidableEq, Repr

def ApiError.httpStatus : ApiError → Nat
  | .notFound _ => 404
  | .invalidArgument _ => 400
  | .conflict _ => 400
  | .serverError _ => 500

/-- A handler outcome: the JSON response (success message or typed error)
paired with the database state after the request. -/
abbrev ApiResult := Except ApiError String × DB

/-- `SELECT ... FROM merchandise WHERE id = ?` + `fetchone()`. -/
def findMerch (db : DB) (mid : Int) : Option Merch :=
  db.merchandise.find? (fun m => m.id == mid)

/-- `SELECT id FROM consumers WHERE id = ?` + `fetchone()`. -/
def findConsumer (db : DB) (cid : Int) : Option Consumer :=
  db.consumers.find? (fun c => c.id == cid)

/-- `SELECT ... FROM sales WHERE id = ?` + `fetchone()`. -/
def findSale (db : DB) (sid : Int) : Option Sale :=
  db.sales.find? (fun s => s.id == sid)

/-- `update_merchandise` (`src/app.py:143-157`): an unconditional SQL
`UPDATE ... WHERE id = ?` followed by a success response — rows matching the
identifier are replaced in place; when none matches, nothing changes and the
handler still reports success. -/
def update_merchandise (db : DB) (merchandise_id : Int) (name : String)
    (description : String) (quantity : Int) (price : Rat) : ApiResult :=
  let merchandise' := db.merchandise.map (fun m =>
    if m.id == merchandise_id then
      { m with name := name, description := some description,
               quantity := quantity, price := price,
               updated_at := nowString db }
    else m)
  (.ok "상품 정보가 업데이트되었습니다", { db with merchandise := merchandise' })

/-- `delete_merchandise` (`src/app.py:160-175`): refuse (`Conflict`) when any
sale references the item, else `DELETE FROM merchandise WHERE id = ?`. -/
def delete_merchandise (db : DB) (merchandise_id : Int) : ApiResult :=
  let sales_count := (db.sales.filter (fun s => s.merchandise_id == merchandise_id)).length
  if sales_count > 0 then
    (.error (.conflict "판매 이력이 있는 상품은 삭제할 수 없습니다"), db)
  else
    (.ok "상품이 삭제되었습니다",
     { db with merchandise := db.merchandise.filter (fun m => !(m.id == merchandise_id)) })

/-- `delete_consumer` (`src/app.py:377-388`): refuse (`Conflict`) when any sale
references the consumer (`WHERE consumer_id = ?` does not match NULL), else
delete the row. -/
def delete_consumer (db : DB) (consumer_id : Int) : ApiResult :=
  let sales_count := (db.sales.filter (fun s => s.consumer_id == some consumer_id)).length
  if sales_count > 0 then
    (.error (.conflict "판매 이력이 있는 소비자는 삭제할 수 없습니다"), db)
  else
    (.ok "소비자가 삭제되었습니다",
     { db with consumers := db.consumers.filter (fun c => !(c.id == consumer_id)) })

/-- `record_sale` (`src/app.py:178-221`): look up the merchandise (404),
require a consumer reference (400) that exists (404), check stock
(`current_quantity < quantity_sold` → 400 insufficient stock), then insert the
sale row at the merchandise's current price and decrement the stock.  Note the
source performs no positivity check on `quantity_sold` here. -/
def record_sale (db : DB) (merchandise_id : Int) (consumer_id : Option Int)
    (quantity_sold : Int) : ApiResult :=
  match findMerch db merchandise_id with
  | none => (.error (.notFound "상품을 찾을 수 없습니다"), db)
  | some row =>
    let current_quantity := row.quantity
    let price := row.price
    match consumer_id with
    | none => (.error (.invalidArgument "소비자를 선택해주세요"), db)
    | some cid =>
      if (findConsumer db cid).isNone then
        (.error (.notFound "소비자를 찾을 수 없습니다"), db)
      else if current_quantity < quantity_sold then
        (.error (.conflict "재고가 부족합니다"), db)
      else
        let total_price := price * (quantity_sold : Rat)
        let sale : Sale :=
          { id := db.nextSaleId, merchandise_id := merchandise_id,
            consumer_id := some cid, quantity_sold := quantity_sold,
            unit_price := price, total_price := total_price,
            sale_date := nowString db }
        let merchandise' := db.merchandise.map (fun m =>
          if m.id == merchandise_id then
            { m with quantity := m.quantity - quantity_sold, updated_at := nowString db }
          else m)
        (.ok "판매가 기록되었습니다",
         { db with sales := db.sales ++ [sale], merchandise := merchandise',
                   nextSaleId := db.nextSaleId + 1 })

/-- The insufficient-stock test of `update_sale` (`src/app.py:305-310`): when
the quantity grows (`quantity_diff > 0`), the merchandise must exist and its
available quantity must cover the difference (`if not merchandise or
merchandise['quantity'] < quantity_diff`). -/
def stockShortB (db : DB) (sale : Sale) (q : Int) : Bool :=
  q - sale.quantity_sold > 0 &&
    (match findMerch db sale.merchandise_id with
     | none => true
     | some merchandise => merchandise.quantity < q - sale.quantity_sold)

/-- `update_sale` (`src/app.py:282-326`): validate the new quantity
(`isinstance(int)` and `> 0`, modelled by an `Option Int` that must be
positive) and the consumer reference, fetch the sale (404), and when the
quantity grows, check the merchandise's available stock covers the difference
(a missing merchandise row also takes the insufficient-stock branch); then
adjust the stock by the signed difference and rewrite the sale row with the
new consumer, quantity and `total_price = unit_price * new quantity` (the
stored `unit_price`, not the merchandise's current price). -/
def update_sale (db : DB) (sale_id : Int) (quantity_sold : Option Int)
    (consumer_id : Option Int) : ApiResult :=
  match quantity_sold with
  | none => (.error (.invalidArgument "판매 수량은 1 이상이어야 합니다"), db)
  | some q =>
    if q ≤ 0 then (.error (.invalidArgument "판매 수량은 1 이상이어야 합니다"), db)
    else
      match consumer_id with
      | none => (.error (.invalidArgument "소비자를 선택해주세요"), db)
      | some cid =>
        if (findConsumer db cid).isNone then
          (.error (.notFound "소비자를 찾을 수 없습니다"), db)
        else
          match findSale db sale_id with
          | none => (.error (.notFound "판매 기록을 찾을 수 없습니다"), db)
          | some sale =>
            if stockShortB db sale q then (.error (.conflict "재고가 부족합니다"), db)
            else
              let merchandise' := db.merchandise.map (fun m =>
                if m.id == sale.merchandise_id then
                  { m with quantity := m.quantity - (q - sale.quantity_sold),
                           updated_at := nowString db }
                else m)
              let total_price := sale.unit_price * (q : Rat)
              let sales' := db.sales.map (fun s =>
                if s.id == sale_id then
                  { s with consumer_id := some cid, quantity_sold := q, total_price := total_price }
                else s)
              (.ok "판매 기록이 수정되었습니다",
               { db with merchandise := merchandise', sales := sales' })

/-- `delete_sale` (`src/app.py:329-346`): fetch the sale (404), restore its
`quantity_sold` to the merchandise row, then delete the sale row. -/
def delete_sale (db : DB) (sale_id : Int) : ApiResult :=
  match findSale db sale_id with
  | none => (.error (.notFound "판매 기록을 찾을 수 없습니다"), db)
  | some sale =>
    let merchandise' := db.merchandise.map (fun m =>
      if m.id == sale.merchandise_id then
        { m with quantity := m.quantity + sale.quantity_sold, updated_at := nowString db }
      else m)
    (.ok "판매 기록이 삭제되었습니다",
     { db with merchandise := merchandise',
               sales := db.sales.filter (fun s => !(s.id == sale_id)) })

/-! ## Report query builder (`get_sales`, `src/app.py:224-279`) -/

/-- A row of the sales-history result: `SELECT s.*, m.name, m.description,
c.name, c.phone, c.address` with an inner join on merchandise and a left join
on consumers. -/
structure JoinedRow where
  sale : Sale
  merchandise_name : String
  merchandise_description : Option String
  consumer_name : Option String
  consumer_phone : Option String
  consumer_address : Option String
deriving DecidableEq, Repr

/-- Consumers matching `s.consumer_id = c.id`; a NULL reference matches none. -/
def consumerMatches (db : DB) (s : Sale) : List Consumer :=
  match s.consumer_id with
  | none => []
  | some cid => db.consumers.filter (fun c => c.id == cid)

/-- `FROM sales s JOIN merchandise m ON s.merchandise_id = m.id LEFT JOIN
consumers c ON s.consumer_id = c.id`. -/
def joinRows (db : DB) : List JoinedRow :=
  db.sales.flatMap (fun s =>
    (db.merchandise.filter (fun m => m.id == s.merchandise_id)).flatMap (fun m =>
      match consumerMatches db s with
      | [] => [{ sale := s, merchandise_name := m.name,
                 merchandise_description := m.description,
                 consumer_name := none, consumer_phone := none,
                 consumer_address := none }]
      | cs => cs.map (fun c =>
          { sale := s, merchandise_name := m.name,
            merchandise_description := m.description,
            consumer_name := some c.name, consumer_phone := c.phone,
            consumer_address := c.address })))

def leapYear (y : Nat) : Bool :=
  y % 4 == 0 && (y % 100 != 0 || y % 400 == 0)

def daysInMonth (y m : Nat) : Nat :=
  if m == 2 then (if leapYear y then 29 else 28)
  else if m == 4 || m == 6 || m == 9 || m == 11 then 30
  else 31

def digit (c : Char) : Nat := c.toNat - 48

/-- One field of `strptime`'s `%m`/`%d`: a two-digit value `01..maxVal`, or a
single nonzero digit when not followed by another digit (CPython's patterns
`1[0-2]|0[1-9]|[1-9]` and `3[01]|[12]\d|0[1-9]|[1-9]`). -/
def parse2or1 (maxVal : Nat) (cs : List Char) : Option (Nat × List Char) :=
  match cs with
  | [] => none
  | [c1] => if c1.isDigit && 1 ≤ digit c1 then some (digit c1, []) else none
  | c1 :: c2 :: rest =>
    if c1.isDigit && c2.isDigit then
      let v := digit c1 * 10 + digit c2
      if 1 ≤ v && v ≤ maxVal then some (v, rest) else none
    else if c1.isDigit && 1 ≤ digit c1 then some (digit c1, c2 :: rest)
    else none

/-- `datetime.strptime(s, '%Y-%m-%d')`: a four-digit year, month and day per
`parse2or1`, the whole string consumed, then the `datetime` constructor's
validation — year at least `MINYEAR = 1` and the day within the month. -/
def parse_date (s : String) : Option (Nat × Nat × Nat) :=
  match s.toList with
  | y1 :: y2 :: y3 :: y4 :: '-' :: rest =>
    if y1.isDigit && y2.isDigit && y3.isDigit && y4.isDigit then
      let y := digit y1 * 1000 + digit y2 * 100 + digit y3 * 10 + digit y4
      match parse2or1 12 rest with
      | some (m, '-' :: rest2) =>
        match parse2or1 31 rest2 with
        | some (d, []) =>
          if 1 ≤ y && d ≤ daysInMonth y m then some (y, m, d) else none
        | _ => none
      | _ => none
    else none
  | _ => none

/-- `start.strftime('%Y-%m-%d 00:00:00')`. -/
def dateFloor (d : Nat × Nat × Nat) : String :=
  dateString d.1 d.2.1 d.2.2 ++ " 00:00:00"

/-- `end.strftime('%Y-%m-%d 23:59:59')`. -/
def dateCeil (d : Nat × Nat × Nat) : String :=
  dateString d.1 d.2.1 d.2.2 ++ " 23:59:59"

/-- The explicit-range WHERE clause: `s.sale_date >= start 00:00:00` and
`s.sale_date <= end 23:59:59` (SQLite TEXT comparison is lexicographic on the
timestamp strings), each bound only when supplied. -/
def rangeCond (os oe : Option (Nat × Nat × Nat)) (r : JoinedRow) : Bool :=
  (match os with
   | none => true
   | some d => decide (dateFloor d ≤ r.sale.sale_date)) &&
  (match oe with
   | none => true
   | some d => decide (r.sale.sale_date ≤ dateCeil d))

/-- The explicit-range window test on a bare sale row (`rangeCond` composed
with the row's sale component). -/
def saleInWindow (os oe : Option (Nat × Nat × Nat)) (s : Sale) : Bool :=
  (match os with
   | none => true
   | some d => decide (dateFloor d ≤ s.sale_date)) &&
  (match oe with
   | none => true
   | some d => decide (s.sale_date ≤ dateCeil d))

/-- A supplied bound must parse (else the handler fails); an absent bound
imposes no condition. -/
def parseBound (o : Option String) : Option (Option (Nat × Nat × Nat)) :=
  match o with
  | none => some none
  | some s => (parse_date s).map some

def prevDay (y m d : Nat) : Nat × Nat × Nat :=
  if d > 1 then (y, m, d - 1)
  else if m > 1 then (y, m - 1, daysInMonth y (m - 1))
  else (y - 1, 12, 31)

/-- `datetime - timedelta(days=n)` on the date part. -/
def subDays : Nat × Nat × Nat → Nat → Nat × Nat × Nat
  | p, 0 => p
  | p, n + 1 => subDays (prevDay p.1 p.2.1 p.2.2) n

/-- The named relative periods (`last_month`, `this_month`, `last_30_days`)
computed from the clock as in `src/app.py:255-271`; any other period name
yields no filter. -/
def periodCond (now : DateTime) (period : String) : Option (JoinedRow → Bool) :=
  if period == "last_month" then
    let ym := if now.month == 1 then (now.year - 1, 12) else (now.year, now.month - 1)
    let lo := dateString ym.1 ym.2 1 ++ " 00:00:00"
    let hi := dateString ym.1 ym.2 (daysInMonth ym.1 ym.2) ++ " 23:59:59"
    some (fun r => decide (lo ≤ r.sale.sale_date) && decide (r.sale.sale_date ≤ hi))
  else if period == "this_month" then
    let lo := dateString now.year now.month 1 ++ " 00:00:00"
    some (fun r => decide (lo ≤ r.sale.sale_date))
  else if period == "last_30_days" then
    let d := subDays (now.year, now.month, now.day) 30
    let lo := dateString d.1 d.2.1 d.2.2 ++ " " ++
      pad2 now.hour ++ ":" ++ pad2 now.minute ++ ":" ++ pad2 now.second
    some (fun r => decide (lo ≤ r.sale.sale_date))
  else none

/-- `ORDER BY s.sale_date DESC`. -/
def sortSales (l : List JoinedRow) : List JoinedRow :=
  l.mergeSort (fun a b => decide (b.sale.sale_date ≤ a.sale.sale_date))

/-- `get_sales` (`src/app.py:224-279`): when an explicit start or end date is
supplied it takes precedence (a named period is ignored); a malformed date
fails with `InvalidArgument`; otherwise a named period, else the full history.
The join is filtered by the selected window and sorted by sale date
descending. -/
def get_sales (db : DB) (period : String) (start_date end_date : Option String) :
    Except ApiError (List JoinedRow) :=
  if start_date.isSome || end_date.isSome then
    match parseBound start_date, parseBound end_date with
    | some os, some oe => .ok (sortSales ((joinRows db).filter (rangeCond os oe)))
    | _, _ => .error (.invalidArgument "잘못된 날짜 형식입니다. YYYY-MM-DD 형식을 사용하세요.")
  else
    match periodCond db.now period with
    | some cond => .ok (sortSales ((joinRows db).filter cond))
    | none => .ok (sortSales (joinRows db))

/-! ## Interchange codec (`backup_database` / `restore_database`,
`src/app.py:391-506`) -/

/-- A JSON value as produced by `json.dumps(dict(row))` for a table row:
null, an SQLite INTEGER, an SQLite REAL, or TEXT. -/
inductive JVal where
  | jnull : JVal
  | jint : Int → JVal
  | jnum : Rat → JVal
  | jstr : String → JVal
deriving DecidableEq, Repr

/-- The decoded `row_data` of one backup row: field name/value pairs. -/
abbrev Payload := List (String × JVal)

def encOptStr : Option String → JVal
  | none => .jnull
  | some s => .jstr s

def encOptInt : Option Int → JVal
  | none => .jnull
  | some n => .jint n

def merchPayload (m : Merch) : Payload :=
  [("id", .jint m.id), ("name", .jstr m.name),
   ("description", encOptStr m.description), ("quantity", .jint m.quantity),
   ("price", .jnum m.price), ("created_at", .jstr m.created_at),
   ("updated_at", .jstr m.updated_at)]

def consumerPayload (c : Consumer) : Payload :=
  [("id", .jint c.id), ("name", .jstr c.name), ("phone", encOptStr c.phone),
   ("address", encOptStr c.address), ("notes", encOptStr c.notes),
   ("created_at", encOptStr c.created_at), ("updated_at", encOptStr c.updated_at)]

def salePayload (s : Sale) : Payload :=
  [("id", .jint s.id), ("merchandise_id", .jint s.merchandise_id),
   ("consumer_id", encOptInt s.consumer_id),
   ("quantity_sold", .jint s.quantity_sold), ("unit_price", .jnum s.unit_price),
   ("total_price", .jnum s.total_price), ("sale_date", .jstr s.sale_date)]

/-- The columnar backup body (`src/app.py:398-426`): every row of the three
tables, in the `select_queries` order merchandise, consumers, sales, each
tagged with its table name. -/
def backup_parquet (db : DB) : List (String × Payload) :=
  db.merchandise.map (fun m => ("merchandise", merchPayload m)) ++
  db.consumers.map (fun c => ("consumers", consumerPayload c)) ++
  db.sales.map (fun s => ("sales", salePayload s))

/-- A backup response body: the raw store file, or the columnar archive. -/
inductive BackupOut where
  | raw (content : DB)
  | parquet (rows : List (String × Payload))
deriving DecidableEq, Repr

/-- `str.lower()` on the ASCII query parameter (modelled for ASCII). -/
def lowerChar (c : Char) : Char :=
  if 65 ≤ c.toNat && c.toNat ≤ 90 then Char.ofNat (c.toNat + 32) else c

def lowerAscii (s : String) : String := String.mk (s.toList.map lowerChar)

/-- `backup_database` (`src/app.py:391-433`): `format=parquet` produces the
columnar archive, `format=db` (the default) the raw file, anything else 400. -/
def backup_database (db : DB) (format : String) : Except ApiError BackupOut :=
  let backup_format := lowerAscii format
  if backup_format == "parquet" then .ok (.parquet (backup_parquet db))
  else if backup_format == "db" then .ok (.raw db)
  else .error (.invalidArgument "지원하지 않는 백업 형식입니다")

def merchCols : List String :=
  ["id", "name", "description", "quantity", "price", "created_at", "updated_at"]

def consumerCols : List String :=
  ["id", "name", "phone", "address", "notes", "created_at", "updated_at"]

def saleCols : List String :=
  ["id", "merchandise_id", "consumer_id", "quantity_sold", "unit_price",
   "total_price", "sale_date"]

/-- `restore_columns`: the payload's keys that exist in the destination
table's current column set; unknown fields are dropped. -/
def restoreColumns (p : Payload) (cols : List String) : List String :=
  (p.map (fun kv => kv.1)).filter (fun k => cols.contains k)

def lookupJ (p : Payload) (k : String) : Option JVal :=
  (p.find? (fun kv => kv.1 == k)).map (fun kv => kv.2)

/-- `INTEGER PRIMARY KEY AUTOINCREMENT` on insert: an explicit integer is
kept; an absent or NULL id is auto-assigned past the ids inserted so far
(a non-integer id is not modelled and fails the insert). -/
def decodeId (usedIds : List Int) (p : Payload) : Option Int :=
  match lookupJ p "id" with
  | some (.jint n) => some n
  | some .jnull => some (usedIds.foldr max 0 + 1)
  | none => some (usedIds.foldr max 0 + 1)
  | some _ => none

/-- A `TEXT NOT NULL` column without default: the field must be present and
textual, else the insert raises. -/
def getStrF (p : Payload) (k : String) : Option String :=
  match lookupJ p k with
  | some (.jstr s) => some s
  | _ => none

/-- A nullable TEXT column without default: absent or null becomes NULL. -/
def getOptStrF (p : Payload) (k : String) : Option (Option String) :=
  match lookupJ p k with
  | none => some none
  | some .jnull => some none
  | some (.jstr s) => some (some s)
  | some _ => none

/-- An `INTEGER NOT NULL` column without default. -/
def getIntF (p : Payload) (k : String) : Option Int :=
  match lookupJ p k with
  | some (.jint n) => some n
  | _ => none

/-- A nullable INTEGER column. -/
def getOptIntF (p : Payload) (k : String) : Option (Option Int) :=
  match lookupJ p k with
  | none => some none
  | some .jnull => some none
  | some (.jint n) => some (some n)
  | some _ => none

/-- A `REAL NOT NULL` column; REAL affinity also accepts an integer value. -/
def getRatF (p : Payload) (k : String) : Option Rat :=
  match lookupJ p k with
  | some (.jnum x) => some x
  | some (.jint n) => some (n : Rat)
  | _ => none

/-- A `TIMESTAMP DEFAULT CURRENT_TIMESTAMP` column: absent falls back to the
clock (a NULL or non-text value is not modelled and fails the insert). -/
def getTsF (dflt : String) (p : Payload) (k : String) : Option String :=
  match lookupJ p k with
  | some (.jstr s) => some s
  | none => some dflt
  | some _ => none

def decodeMerch (now : String) (usedIds : List Int) (p : Payload) : Option Merch := do
  let i ← decodeId usedIds p
  let nm ← getStrF p "name"
  let ds ← getOptStrF p "description"
  let q ← match lookupJ p "quantity" with
    | some (.jint n) => some n
    | none => some (0 : Int)
    | _ => none
  let pr ← getRatF p "price"
  let ca ← getTsF now p "created_at"
  let ua ← getTsF now p "updated_at"
  pure { id := i, name := nm, description := ds, quantity := q, price := pr,
         created_at := ca, updated_at := ua }

def decodeConsumer (usedIds : List Int) (p : Payload) : Option Consumer := do
  let i ← decodeId usedIds p
  let nm ← getStrF p "name"
  let ph ← getOptStrF p "phone"
  let ad ← getOptStrF p "address"
  let nt ← getOptStrF p "notes"
  let ca ← getOptStrF p "created_at"
  let ua ← getOptStrF p "updated_at"
  pure { id := i, name := nm, phone := ph, address := ad, notes := nt,
         created_at := ca, updated_at := ua }

def decodeSale (now : String) (usedIds : List Int) (p : Payload) : Option Sale := do
  let i ← decodeId usedIds p
  let mi ← getIntF p "merchandise_id"
  let ci ← getOptIntF p "consumer_id"
  let qs ← getIntF p "quantity_sold"
  let up ← getRatF p "unit_price"
  let tp ← getRatF p "total_price"
  let sd ← getTsF now p "sale_date"
  pure { id := i, merchandise_id := mi, consumer_id := ci, quantity_sold := qs,
         unit_price := up, total_price := tp, sale_date := sd }

/-- The per-table restore loop (`src/app.py:487-498`): a row whose projected
column set is empty is skipped; otherwise it is decoded and inserted, and a
row violating the schema's constraints aborts the restore. -/
def restoreRows {α : Type} (cols : List String) (idOf : α → Int)
    (decode : List Int → Payload → Option α) :
    List Payload → List α → Option (List α)
  | [], acc => some acc
  | p :: rest, acc =>
    if (restoreColumns p cols).isEmpty then restoreRows cols idOf decode rest acc
    else
      match decode (acc.map idOf) p with
      | none => none
      | some r => restoreRows cols idOf decode rest (acc ++ [r])

/-- `[row_data for table_name, row_data in parquet_rows if table_name == table]`. -/
def rowsFor (rows : List (String × Payload)) (table : String) : List Payload :=
  (rows.filter (fun r => r.1 == table)).map (fun r => r.2)

/-- What the boundary hands to `restore_database`: no file, a file with an
unsupported extension, a raw store file, or a `.parquet` upload that either
decodes to a columnar archive or is unreadable (`none`). -/
inductive RestoreUpload where
  | noFile : RestoreUpload
  | badExtension : RestoreUpload
  | raw (content : DB) : RestoreUpload
  | parquet (rows : Option (List (String × Payload))) : RestoreUpload

/-- The store right after `init_db` on a fresh file. -/
def emptyDB (now : DateTime) : DB :=
  { merchandise := [], consumers := [], sales := [], nextSaleId := 1, now := now }

/-- `restore_database` (`src/app.py:436-506`): reject a missing file or bad
extension; a raw store file replaces the store wholesale; a parquet upload is
first read (an unreadable archive fails with `InvalidArgument`, the store
untouched), then the store file is deleted, recreated, and repopulated table
by table (consumers, merchandise, sales).  A row the schema rejects raises
after the original store is already gone, leaving the fresh empty store. -/
def restore_database (db : DB) (upload : RestoreUpload) : ApiResult :=
  match upload with
  | .noFile => (.error (.invalidArgument "복원할 데이터베이스 파일을 선택해주세요"), db)
  | .badExtension => (.error (.invalidArgument "지원하지 않는 복원 파일 형식입니다"), db)
  | .raw content => (.ok "데이터베이스를 복원했습니다", content)
  | .parquet none => (.error (.invalidArgument "유효하지 않은 Parquet 백업 파일입니다"), db)
  | .parquet (some rows) =>
    match restoreRows consumerCols Consumer.id decodeConsumer (rowsFor rows "consumers") [],
          restoreRows merchCols Merch.id (decodeMerch (nowString db)) (rowsFor rows "merchandise") [],
          restoreRows saleCols Sale.id (decodeSale (nowString db)) (rowsFor rows "sales") [] with
    | some cs, some ms, some ss =>
      (.ok "데이터베이스를 복원했습니다",
       { merchandise := ms, consumers := cs, sales := ss,
         nextSaleId := (ss.map Sale.id).foldr max 0 + 1, now := db.now })
    | _, _, _ => (.error (.serverError "row insert failed"), emptyDB db.now)

/-! ## Ledger operation sequences and the stock invariant -/

/-- One ledger operation, with the request parameters of the corresponding
handler. -/
inductive LedgerOp where
  | record (merchandise_id : Int) (consumer_id : Option Int) (quantity_sold : Int)
  | amend (sale_id : Int) (quantity_sold : Option Int) (consumer_id : Option Int)
  | reverse (sale_id : Int)
deriving DecidableEq, Repr

def applyOp (db : DB) : LedgerOp → ApiResult
  | .record m c q => record_sale db m c q
  | .amend s q c => update_sale db s q c
  | .reverse s => delete_sale db s

/-- Run a sequence of ledger operations, failing if any operation fails. -/
def runOps (db : DB) : List LedgerOp → Except ApiError DB
  | [] => .ok db
  | op :: rest =>
    match applyOp db op with
    | (.ok _, db') => runOps db' rest
    | (.error e, _) => .error e

/-- The contribution of one sale row to a merchandise item's sold total. -/
def soldTo (mid : Int) (s : Sale) : Int :=
  if s.merchandise_id == mid then s.quantity_sold else 0

/-- `Σ(quantity_sold over all currently-existing sales referencing mid)`. -/
def liveSold (l : List Sale) (mid : Int) : Int :=
  (l.map (soldTo mid)).sum

/-- The sales table's PRIMARY KEY/AUTOINCREMENT discipline: distinct ids, all
below the next auto-assigned id. -/
def SaleIdsOk (db : DB) : Prop :=
  (db.sales.map Sale.id).Nodup ∧ ∀ s ∈ db.sales, s.id < db.nextSaleId

/-- The merchandise table of `b` refines that of `a` row by row: same ids in
the same positions, and each row's `quantity + liveSold` ledger total is
unchanged. -/
def MerchAligned (a b : DB) : Prop :=
  b.merchandise.length = a.merchandise.length ∧
  ∀ i (hb : i < b.merchandise.length) (ha : i < a.merchandise.length),
    (b.merchandise.get ⟨i, hb⟩).id = (a.merchandise.get ⟨i, ha⟩).id ∧
    (b.merchandise.get ⟨i, hb⟩).quantity + liveSold b.sales (b.merchandise.get ⟨i, hb⟩).id =
      (a.merchandise.get ⟨i, ha⟩).quantity + liveSold a.sales (a.merchandise.get ⟨i, ha⟩).id

/-- PRIMARY KEY discipline of the merchandise table. -/
def MerchIdsNodup (db : DB) : Prop := (db.merchandise.map Merch.id).Nodup

/-- PRIMARY KEY discipline of the consumers table. -/
def ConsumerIdsNodup (db : DB) : Prop := (db.consumers.map Consumer.id).Nodup

/-- Referential integrity of `sales.merchandise_id` (maintained by the
deletion guard). -/
def SalesRefMerch (db : DB) : Prop :=
  ∀ s ∈ db.sales, ∃ m ∈ db.merchandise, m.id = s.merchandise_id

/-- The history listing is ordered by sale timestamp descending. -/
def DateSortedDesc (l : List JoinedRow) : Prop :=
  l.Pairwise (fun a b => b.sale.sale_date ≤ a.sale.sale_date)

/-! ## Concrete states used by the witnesses -/

def sampleClock : DateTime := ⟨2024, 5, 10, 12, 0, 0⟩

def sampleMerch : Merch :=
  { id := 1, name := "위젯", description := some "테스트", quantity := 10,
    price := (100 : Rat), created_at := "2024-05-01 09:00:00",
    updated_at := "2024-05-01 09:00:00" }

def sampleConsumer1 : Consumer :=
  { id := 1, name := "홍길동", phone := none, address := none, notes := none,
    created_at := none, updated_at := none }

def sampleConsumer2 : Consumer :=
  { id := 2, name := "김철수", phone := some "010", address := none, notes := none,
    created_at := none, updated_at := none }

/-- A store with one item (stock 10), two consumers and no sales. -/
def sampleDB : DB :=
  { merchandise := [sampleMerch], consumers := [sampleConsumer1, sampleConsumer2],
    sales := [], nextSaleId := 1, now := sampleClock }

def sampleSale1 : Sale :=
  { id := 1, merchandise_id := 1, consumer_id := some 1, quantity_sold := 3,
    unit_price := 100, total_price := 300, sale_date := "2024-01-15 10:30:00" }

def sampleSale2 : Sale :=
  { id := 2, merchandise_id := 1, consumer_id := some 2, quantity_sold := 2,
    unit_price := 100, total_price := 200, sale_date := "2024-02-05 08:00:00" }

/-- The same store after the two sample sales. -/
def sampleDB2 : DB :=
  { merchandise := [{ sampleMerch with quantity := 5 }],
    consumers := [sampleConsumer1, sampleConsumer2],
    sales := [sampleSale1, sampleSale2], nextSaleId := 3, now := sampleClock }

/-! ## Helper lemmas -/

theorem map_preserve_eq_self {α : Type} (l : List α) (f : α → α)
    (h : ∀ a ∈ l, f a = a) : l.map f = l := by
  rw [List.map_congr_left h]
  exact List.map_id l

theorem find?_map_of_pred {α : Type} (l : List α) (f : α → α) (p : α → Bool)
    (hp : ∀ a, p (f a) = p a) :
    (l.map f).find? p = (l.find? p).map f := by
  have hfp : (p ∘ f) = p := funext hp
  rw [List.find?_map, hfp]

/-! ### Branch equations of the ledger handlers -/

theorem record_sale_eq_noMerch (db : DB) (mid : Int) (co : Option Int) (q : Int)
    (hm : findMerch db mid = none) :
    record_sale db mid co q = (.error (.notFound "상품을 찾을 수 없습니다"), db) := by
  unfold record_sale
  rw [hm]

theorem record_sale_eq_noConsRef (db : DB) (mid q : Int) (m : Merch)
    (hm : findMerch db mid = some m) :
    record_sale db mid none q = (.error (.invalidArgument "소비자를 선택해주세요"), db) := by
  unfold record_sale
  rw [hm]

theorem record_sale_eq_badCons (db : DB) (mid cid q : Int) (m : Merch)
    (hm : findMerch db mid = some m) (hc : findConsumer db cid = none) :
    record_sale db mid (some cid) q = (.error (.notFound "소비자를 찾을 수 없습니다"), db) := by
  unfold record_sale
  rw [hm]
  dsimp only
  rw [hc]
  rfl

theorem record_sale_eq_conflict (db : DB) (mid cid q : Int) (m : Merch) (c : Consumer)
    (hm : findMerch db mid = some m) (hc : findConsumer db cid = some c)
    (hlt : m.quantity < q) :
    record_sale db mid (some cid) q = (.error (.conflict "재고가 부족합니다"), db) := by
  unfold record_sale
  rw [hm]
  dsimp only
  rw [hc]
  simp [hlt]

theorem record_sale_eq_ok (db : DB) (mid cid q : Int) (m : Merch) (c : Consumer)
    (hm : findMerch db mid = some m) (hc : findConsumer db cid = some c)
    (hnlt : ¬ m.quantity < q) :
    record_sale db mid (some cid) q =
      (.ok "판매가 기록되었습니다",
       { db with
         sales := db.sales ++
           [{ id := db.nextSaleId, merchandise_id := mid, consumer_id := some cid,
              quantity_sold := q, unit_price := m.price,
              total_price := m.price * (q : Rat), sale_date := nowString db }],
         merchandise := db.merchandise.map (fun x =>
           if x.id == mid then
             { x with quantity := x.quantity - q, updated_at := nowString db }
           else x),
         nextSaleId := db.nextSaleId + 1 }) := by
  unfold record_sale
  rw [hm]
  dsimp only
  rw [hc]
  simp [hnlt]

theorem update_sale_eq_noQty (db : DB) (sid : Int) (co : Option Int) :
    update_sale db sid none co = (.error (.invalidArgument "판매 수량은 1 이상이어야 합니다"), db) := rfl

theorem update_sale_eq_badQty (db : DB) (sid q : Int) (co : Option Int) (hq : q ≤ 0) :
    update_sale db sid (some q) co =
      (.error (.invalidArgument "판매 수량은 1 이상이어야 합니다"), db) := by
  unfold update_sale
  simp [hq]

theorem update_sale_eq_noConsRef (db : DB) (sid q : Int) (hq : 0 < q) :
    update_sale db sid (some q) none = (.error (.invalidArgument "소비자를 선택해주세요"), db) := by
  unfold update_sale
  simp [not_le.mpr hq]

theorem update_sale_eq_badCons (db : DB) (sid cid q : Int) (hq : 0 < q)
    (hc : findConsumer db cid = none) :
    update_sale db sid (some q) (some cid) =
      (.error (.notFound "소비자를 찾을 수 없습니다"), db) := by
  simp only [update_sale, hc]
  simp [not_le.mpr hq]

theorem update_sale_eq_noSale (db : DB) (sid cid q : Int) (c : Consumer) (hq : 0 < q)
    (hc : findConsumer db cid = some c) (hs : findSale db sid = none) :
    update_sale db sid (some q) (some cid) =
      (.error (.notFound "판매 기록을 찾을 수 없습니다"), db) := by
  simp only [update_sale, hc, hs]
  simp [not_le.mpr hq]

theorem update_sale_eq_conflict (db : DB) (sid cid q : Int) (sale : Sale) (c : Consumer)
    (hq : 0 < q) (hc : findConsumer db cid = some c) (hs : findSale db sid = some sale)
    (hshort : stockShortB db sale q = true) :
    update_sale db sid (some q) (some cid) = (.error (.conflict "재고가 부족합니다"), db) := by
  simp only [update_sale, hc, hs]
  simp [not_le.mpr hq, hshort]

theorem update_sale_eq_ok (db : DB) (sid cid q : Int) (sale : Sale) (c : Consumer)
    (hq : 0 < q) (hc : findConsumer db cid = some c) (hs : findSale db sid = some sale)
    (hshort : stockShortB db sale q = false) :
    update_sale db sid (some q) (some cid) =
      (.ok "판매 기록이 수정되었습니다",
       { db with
         merchandise := db.merchandise.map (fun m =>
           if m.id == sale.merchandise_id then
             { m with quantity := m.quantity - (q - sale.quantity_sold),
                      updated_at := nowString db }
           else m),
         sales := db.sales.map (fun s =>
           if s.id == sid then
             { s with consumer_id := some cid, quantity_sold := q,
                      total_price := sale.unit_price * (q : Rat) }
           else s) }) := by
  simp only [update_sale, hc, hs]
  simp [not_le.mpr hq, hshort]

theorem delete_sale_eq_noSale (db : DB) (sid : Int) (hs : findSale db sid = none) :
    delete_sale db sid = (.error (.notFound "판매 기록을 찾을 수 없습니다"), db) := by
  unfold delete_sale
  rw [hs]

theorem delete_sale_eq_ok (db : DB) (sid : Int) (sale : Sale)
    (hs : findSale db sid = some sale) :
    delete_sale db sid =
      (.ok "판매 기록이 삭제되었습니다",
       { db with
         merchandise := db.merchandise.map (fun m =>
           if m.id == sale.merchandise_id then
             { m with quantity := m.quantity + sale.quantity_sold,
                      updated_at := nowString db }
           else m),
         sales := db.sales.filter (fun s => !(s.id == sid)) }) := by
  unfold delete_sale
  rw [hs]

/-! ## C10 — merchandise update with an unknown identifier silently succeeds -/

/-- C10: a merchandise-update request whose identifier matches no existing
merchandise row reports success and leaves the store unchanged (the SQL
`UPDATE` matches no rows and the handler commits and answers 200 anyway). -/
theorem update_merchandise_missing_id (db : DB) (mid : Int)
    (name description : String) (quantity : Int) (price : Rat)
    (h : ∀ m ∈ db.merchandise, m.id ≠ mid) :
    update_merchandise db mid name description quantity price =
      (.ok "상품 정보가 업데이트되었습니다", db) := by
  have hmap := map_preserve_eq_self db.merchandise
    (fun m => if m.id == mid then
      { m with name := name, description := some description,
               quantity := quantity, price := price,
               updated_at := nowString db }
      else m)
    (fun m hm => by
      have hne : (m.id == mid) = false := beq_eq_false_iff_ne.mpr (h m hm)
      simp [hne])
  simp only [update_merchandise, hmap]

/-- C10 witness: updating the absent id 7 in the sample store succeeds and
changes nothing. -/
theorem update_merchandise_missing_id_witness :
    update_merchandise sampleDB 7 "이름" "설명" 3 (5 : Rat) =
      (.ok "상품 정보가 업데이트되었습니다", sampleDB) :=
  update_merchandise_missing_id sampleDB 7 "이름" "설명" 3 (5 : Rat) (by decide)

/-! ## C2 — recording a sale beyond available stock fails with Conflict -/

/-- C2: a record-sale request for an existing item, with a supplied and
existing consumer, whose quantity sold strictly exceeds the item's current
quantity fails with `Conflict` (insufficient stock) and returns the store
unchanged — no sale row is inserted and no quantity is touched. -/
theorem record_sale_insufficient_stock (db : DB) (mid cid q : Int)
    (m : Merch) (c : Consumer)
    (hm : findMerch db mid = some m) (hc : findConsumer db cid = some c)
    (hlt : m.quantity < q) :
    record_sale db mid (some cid) q = (.error (.conflict "재고가 부족합니다"), db) :=
  record_sale_eq_conflict db mid cid q m c hm hc hlt

/-- C2 witness: selling 11 of the sample item (stock 10) is refused. -/
theorem record_sale_insufficient_stock_witness :
    record_sale sampleDB 1 (some 1) 11 = (.error (.conflict "재고가 부족합니다"), sampleDB) :=
  record_sale_insufficient_stock sampleDB 1 1 11 sampleMerch sampleConsumer1
    (by decide) (by decide) (by decide)

/-! ## C3 — non-positive quantity at record time (claim fails on the code) -/

/-- C3 counterexample: the claim says a record-sale request with quantity sold
`0` fails with `InvalidArgument` before any mutation; on the code it succeeds
and inserts a sale row (`record_sale` has no positivity check — only
`update_sale` does). -/
theorem record_sale_zero_quantity_cx :
    (record_sale sampleDB 1 (some 1) 0).1 = .ok "판매가 기록되었습니다" ∧
    (record_sale sampleDB 1 (some 1) 0).2.sales.length = 1 := by
  constructor <;> rfl

/-- C3 amended: `record_sale` performs no positivity check on the quantity
sold; with an existing item of non-negative stock and an existing consumer, a
non-positive quantity passes the stock check, the sale row is inserted, and
the item's quantity moves by `-quantity_sold` (it grows for a negative
quantity).  Only the amendment handler rejects non-positive quantities. -/
theorem record_sale_nonpositive_accepted (db : DB) (mid cid q : Int)
    (m : Merch) (c : Consumer)
    (hm : findMerch db mid = some m) (hc : findConsumer db cid = some c)
    (hq : q ≤ 0) (hnn : 0 ≤ m.quantity) :
    (record_sale db mid (some cid) q).1 = .ok "판매가 기록되었습니다" ∧
    (record_sale db mid (some cid) q).2.sales =
      db.sales ++ [{ id := db.nextSaleId, merchandise_id := mid,
                     consumer_id := some cid, quantity_sold := q,
                     unit_price := m.price, total_price := m.price * (q : Rat),
                     sale_date := nowString db }] ∧
    findMerch (record_sale db mid (some cid) q).2 mid =
      some { m with quantity := m.quantity - q, updated_at := nowString db } := by
  have hnlt : ¬ m.quantity < q := not_lt.mpr (le_trans hq hnn)
  have hm' : db.merchandise.find? (fun x => x.id == mid) = some m := hm
  have hmid : m.id = mid := by
    simpa using List.find?_some hm'
  rw [record_sale_eq_ok db mid cid q m c hm hc hnlt]
  refine ⟨rfl, rfl, ?_⟩
  unfold findMerch
  rw [find?_map_of_pred _ _ _ (fun a => by by_cases ha : (a.id == mid) = true <;> simp [ha])]
  rw [hm']
  simp [hmid]

/-- C3 amended witness: recording quantity `-2` against stock 10 succeeds and
raises the stock to 12. -/
theorem record_sale_nonpositive_accepted_witness :
    (record_sale sampleDB 1 (some 1) (-2)).1 = .ok "판매가 기록되었습니다" ∧
    (record_sale sampleDB 1 (some 1) (-2)).2.sales =
      sampleDB.sales ++ [{ id := sampleDB.nextSaleId, merchandise_id := 1,
                           consumer_id := some 1, quantity_sold := -2,
                           unit_price := sampleMerch.price,
                           total_price := sampleMerch.price * ((-2 : Int) : Rat),
                           sale_date := nowString sampleDB }] ∧
    findMerch (record_sale sampleDB 1 (some 1) (-2)).2 1 =
      some { sampleMerch with quantity := sampleMerch.quantity - (-2),
                              updated_at := nowString sampleDB } :=
  record_sale_nonpositive_accepted sampleDB 1 1 (-2) sampleMerch sampleConsumer1
    (by decide) (by decide) (by decide) (by decide)

/-! ## C4 — amending a sale: stock check, delta adjustment, pinned unit price -/

/-- C4: amending an existing sale to a new positive quantity with an existing
consumer: when the new quantity exceeds the old by more than the merchandise's
currently available (non-negative) quantity the operation fails with
`Conflict` and changes nothing; otherwise it succeeds, the merchandise
quantity changes by exactly `old_quantity_sold - new_quantity_sold`, and
`total_price` becomes the sale's originally recorded `unit_price` times the
new quantity (never re-read from the merchandise's current price). -/
theorem update_sale_amend_spec (db : DB) (sid cid q : Int) (sale : Sale)
    (mm : Merch) (c : Consumer)
    (hq : 0 < q) (hc : findConsumer db cid = some c)
    (hs : findSale db sid = some sale)
    (hm : findMerch db sale.merchandise_id = some mm) (hnn : 0 ≤ mm.quantity) :
    (mm.quantity < q - sale.quantity_sold →
      update_sale db sid (some q) (some cid) =
        (.error (.conflict "재고가 부족합니다"), db)) ∧
    (q - sale.quantity_sold ≤ mm.quantity →
      (update_sale db sid (some q) (some cid)).1 = .ok "판매 기록이 수정되었습니다" ∧
      findMerch (update_sale db sid (some q) (some cid)).2 sale.merchandise_id =
        some { mm with quantity := mm.quantity + (sale.quantity_sold - q),
                       updated_at := nowString db } ∧
      findSale (update_sale db sid (some q) (some cid)).2 sid =
        some { sale with consumer_id := some cid, quantity_sold := q,
                         total_price := sale.unit_price * (q : Rat) }) := by
  have hm' : db.merchandise.find? (fun x => x.id == sale.merchandise_id) = some mm := hm
  have hs' : db.sales.find? (fun x => x.id == sid) = some sale := hs
  have hmid : mm.id = sale.merchandise_id := by simpa using List.find?_some hm'
  have hsid : sale.id = sid := by simpa using List.find?_some hs'
  constructor
  · intro hlt
    have hshort : stockShortB db sale q = true := by
      unfold stockShortB
      rw [hm]
      have h1 : 0 < q - sale.quantity_sold := by omega
      simp [h1, hlt]
    exact update_sale_eq_conflict db sid cid q sale c hq hc hs hshort
  · intro hle
    have hshort : stockShortB db sale q = false := by
      unfold stockShortB
      rw [hm]
      simp [not_lt.mpr hle]
    rw [update_sale_eq_ok db sid cid q sale c hq hc hs hshort]
    refine ⟨rfl, ?_, ?_⟩
    · unfold findMerch
      rw [find?_map_of_pred _ _ _
        (fun a => by by_cases ha : (a.id == sale.merchandise_id) = true <;> simp [ha])]
      rw [hm']
      simp [hmid]
      have : mm.quantity - (q - sale.quantity_sold) = mm.quantity + (sale.quantity_sold - q) := by
        ring
      simp [this]
    · unfold findSale
      rw [find?_map_of_pred _ _ _
        (fun a => by by_cases ha : (a.id == sid) = true <;> simp [ha])]
      rw [hs']
      simp [hsid]

/-- C4 witness: on the sample store (stock 5, sale of 3) amending to 9 is
refused, amending to 5 succeeds with stock 3 and total 500. -/
theorem update_sale_amend_spec_witness :
    update_sale sampleDB2 1 (some 9) (some 2) =
      (.error (.conflict "재고가 부족합니다"), sampleDB2) ∧
    findSale (update_sale sampleDB2 1 (some 5) (some 2)).2 1 =
      some { sampleSale1 with consumer_id := some 2, quantity_sold := 5,
                              total_price := sampleSale1.unit_price * ((5 : Int) : Rat) } ∧
    findMerch (update_sale sampleDB2 1 (some 5) (some 2)).2 sampleSale1.merchandise_id =
      some { { sampleMerch with quantity := 5 } with
             quantity := (5 : Int) + (sampleSale1.quantity_sold - 5),
             updated_at := nowString sampleDB2 } :=
  ⟨(update_sale_amend_spec sampleDB2 1 2 9 sampleSale1 { sampleMerch with quantity := 5 }
      sampleConsumer2 (by decide) (by decide) (by decide) (by decide) (by decide)).1 (by decide),
   ((update_sale_amend_spec sampleDB2 1 2 5 sampleSale1 { sampleMerch with quantity := 5 }
      sampleConsumer2 (by decide) (by decide) (by decide) (by decide) (by decide)).2 (by decide)).2.2,
   ((update_sale_amend_spec sampleDB2 1 2 5 sampleSale1 { sampleMerch with quantity := 5 }
      sampleConsumer2 (by decide) (by decide) (by decide) (by decide) (by decide)).2 (by decide)).2.1⟩

/-! ## C5 — reversing a sale restores stock and removes the row -/

/-- C5: deleting an existing sale restores exactly its recorded
`quantity_sold` to the referenced merchandise row and removes the sale row,
which is no longer retrievable; deleting a nonexistent sale fails with
`NotFound` and changes nothing. -/
theorem delete_sale_spec (db : DB) (sid : Int) :
    (∀ sale mm, findSale db sid = some sale →
      findMerch db sale.merchandise_id = some mm →
      (delete_sale db sid).1 = .ok "판매 기록이 삭제되었습니다" ∧
      findMerch (delete_sale db sid).2 sale.merchandise_id =
        some { mm with quantity := mm.quantity + sale.quantity_sold,
                       updated_at := nowString db } ∧
      findSale (delete_sale db sid).2 sid = none ∧
      (delete_sale db sid).2.sales = db.sales.filter (fun s => !(s.id == sid))) ∧
    (findSale db sid = none →
      delete_sale db sid = (.error (.notFound "판매 기록을 찾을 수 없습니다"), db)) := by
  constructor
  · intro sale mm hs hm
    have hm' : db.merchandise.find? (fun x => x.id == sale.merchandise_id) = some mm := hm
    have hmid : mm.id = sale.merchandise_id := by simpa using List.find?_some hm'
    rw [delete_sale_eq_ok db sid sale hs]
    refine ⟨rfl, ?_, ?_, rfl⟩
    · unfold findMerch
      rw [find?_map_of_pred _ _ _
        (fun a => by by_cases ha : (a.id == sale.merchandise_id) = true <;> simp [ha])]
      rw [hm']
      simp [hmid]
    · unfold findSale
      rw [List.find?_eq_none]
      intro x hx
      have hmem := (List.mem_filter.mp hx).2
      simp at hmem ⊢
      exact hmem
  · intro hs
    exact delete_sale_eq_noSale db sid hs

/-- C5 witness: deleting sample sale 2 restores the stock from 5 to 7 and the
sale disappears; deleting the absent sale 9 is `NotFound`. -/
theorem delete_sale_spec_witness :
    ((delete_sale sampleDB2 2).1 = .ok "판매 기록이 삭제되었습니다" ∧
     findMerch (delete_sale sampleDB2 2).2 sampleSale2.merchandise_id =
       some { { sampleMerch with quantity := 5 } with
              quantity := (5 : Int) + sampleSale2.quantity_sold,
              updated_at := nowString sampleDB2 } ∧
     findSale (delete_sale sampleDB2 2).2 2 = none ∧
     (delete_sale sampleDB2 2).2.sales =
       sampleDB2.sales.filter (fun s => !(s.id == 2))) ∧
    delete_sale sampleDB2 9 = (.error (.notFound "판매 기록을 찾을 수 없습니다"), sampleDB2) :=
  ⟨(delete_sale_spec sampleDB2 2).1 sampleSale2 { sampleMerch with quantity := 5 }
      (by decide) (by decide),
   (delete_sale_spec sampleDB2 9).2 (by decide)⟩

/-! ## C6 — deletion guards on merchandise and consumers -/

/-- C6: deleting a merchandise item or a consumer referenced by at least one
existing sale fails with `Conflict` and leaves the store unchanged, so the
entity remains; deleting one referenced by zero sales succeeds and removes
every row with that identifier from its table. -/
theorem delete_guard_spec (db : DB) (mid cid : Int) :
    ((∃ s ∈ db.sales, s.merchandise_id = mid) →
       delete_merchandise db mid =
         (.error (.conflict "판매 이력이 있는 상품은 삭제할 수 없습니다"), db)) ∧
    ((∀ s ∈ db.sales, s.merchandise_id ≠ mid) →
       delete_merchandise db mid =
         (.ok "상품이 삭제되었습니다",
          { db with merchandise := db.merchandise.filter (fun m => !(m.id == mid)) }) ∧
       findMerch (delete_merchandise db mid).2 mid = none) ∧
    ((∃ s ∈ db.sales, s.consumer_id = some cid) →
       delete_consumer db cid =
         (.error (.conflict "판매 이력이 있는 소비자는 삭제할 수 없습니다"), db)) ∧
    ((∀ s ∈ db.sales, s.consumer_id ≠ some cid) →
       delete_consumer db cid =
         (.ok "소비자가 삭제되었습니다",
          { db with consumers := db.consumers.filter (fun c => !(c.id == cid)) }) ∧
       findConsumer (delete_consumer db cid).2 cid = none) := by
  refine ⟨?_, ?_, ?_, ?_⟩
  · rintro ⟨s, hsmem, hsid⟩
    have hpos : 0 < (db.sales.filter (fun x => x.merchandise_id == mid)).length :=
      List.length_pos_of_mem (List.mem_filter.mpr ⟨hsmem, by simp [hsid]⟩)
    simp only [delete_merchandise]
    rw [if_pos hpos]
  · intro h
    have hnil : db.sales.filter (fun x => x.merchandise_id == mid) = [] :=
      List.filter_eq_nil_iff.mpr (fun s hsmem => by simp [h s hsmem])
    have heq : delete_merchandise db mid =
        (.ok "상품이 삭제되었습니다",
         { db with merchandise := db.merchandise.filter (fun m => !(m.id == mid)) }) := by
      simp only [delete_merchandise, hnil]
      rfl
    refine ⟨heq, ?_⟩
    rw [heq]
    unfold findMerch
    rw [List.find?_eq_none]
    intro x hx
    have hmem := (List.mem_filter.mp hx).2
    simp at hmem ⊢
    exact hmem
  · rintro ⟨s, hsmem, hsid⟩
    have hpos : 0 < (db.sales.filter (fun x => x.consumer_id == some cid)).length :=
      List.length_pos_of_mem (List.mem_filter.mpr ⟨hsmem, by simp [hsid]⟩)
    simp only [delete_consumer]
    rw [if_pos hpos]
  · intro h
    have hnil : db.sales.filter (fun x => x.consumer_id == some cid) = [] :=
      List.filter_eq_nil_iff.mpr (fun s hsmem => by simp [h s hsmem])
    have heq : delete_consumer db cid =
        (.ok "소비자가 삭제되었습니다",
         { db with consumers := db.consumers.filter (fun c => !(c.id == cid)) }) := by
      simp only [delete_consumer, hnil]
      rfl
    refine ⟨heq, ?_⟩
    rw [heq]
    unfold findConsumer
    rw [List.find?_eq_none]
    intro x hx
    have hmem := (List.mem_filter.mp hx).2
    simp at hmem ⊢
    exact hmem

/-- C6 witness: in the sample store, item 1 and consumer 1 are referenced and
cannot be deleted; id 9 is unreferenced in either table and its deletion
succeeds (and leaves no row with id 9 behind). -/
theorem delete_guard_spec_witness :
    delete_merchandise sampleDB2 1 =
      (.error (.conflict "판매 이력이 있는 상품은 삭제할 수 없습니다"), sampleDB2) ∧
    findMerch (delete_merchandise sampleDB2 9).2 9 = none ∧
    delete_consumer sampleDB2 1 =
      (.error (.conflict "판매 이력이 있는 소비자는 삭제할 수 없습니다"), sampleDB2) ∧
    findConsumer (delete_consumer sampleDB2 9).2 9 = none :=
  ⟨(delete_guard_spec sampleDB2 1 1).1 ⟨sampleSale1, by decide, by decide⟩,
   ((delete_guard_spec sampleDB2 9 9).2.1 (by decide)).2,
   (delete_guard_spec sampleDB2 1 1).2.2.1 ⟨sampleSale1, by decide, by decide⟩,
   ((delete_guard_spec sampleDB2 9 9).2.2.2 (by decide)).2⟩

/-! ## C1 — the stock/sales ledger invariant -/

theorem liveSold_nil (mid : Int) : liveSold [] mid = 0 := rfl

theorem liveSold_append_single (l : List Sale) (s : Sale) (mid : Int) :
    liveSold (l ++ [s]) mid = liveSold l mid + soldTo mid s := by
  simp [liveSold, List.sum_append]

theorem liveSold_append_cons (A C : List Sale) (b : Sale) (mid : Int) :
    liveSold (A ++ b :: C) mid = liveSold A mid + soldTo mid b + liveSold C mid := by
  simp [liveSold, List.sum_append]
  ring

theorem find?_decomp {α : Type} (p : α → Bool) (l : List α) (a : α)
    (h : l.find? p = some a) :
    ∃ l₁ l₂, l = l₁ ++ a :: l₂ ∧ ∀ x ∈ l₁, p x = false := by
  induction l with
  | nil => simp at h
  | cons b t ih =>
    by_cases hpb : p b = true
    · rw [List.find?_cons_of_pos _ hpb] at h
      have hba : b = a := by simpa using h
      exact ⟨[], t, by simp [hba], by simp⟩
    · have hpb' : p b = false := by simpa using hpb
      rw [List.find?_cons_of_neg _ (by simp [hpb'])] at h
      obtain ⟨l₁, l₂, hl, hf⟩ := ih h
      refine ⟨b :: l₁, l₂, by simp [hl], ?_⟩
      intro x hx
      rcases List.mem_cons.mp hx with rfl | hx'
      · exact hpb'
      · exact hf x hx'

/-- With distinct sale ids, the elements after the first hit of `find?` also
miss the predicate on ids. -/
theorem tail_misses_of_nodup (l₁ l₂ : List Sale) (sale : Sale) (sid : Int)
    (hnd : (((l₁ ++ sale :: l₂)).map Sale.id).Nodup)
    (hsid : (sale.id == sid) = true) :
    ∀ x ∈ l₂, (x.id == sid) = false := by
  have hnd' : ((l₁.map Sale.id) ++ sale.id :: (l₂.map Sale.id)).Nodup := by
    simpa using hnd
  have hni : sale.id ∉ l₂.map Sale.id :=
    (List.nodup_cons.mp (List.nodup_append.mp hnd').2.1).1
  intro x hx
  have hxne : x.id ≠ sale.id := fun he => hni (he ▸ List.mem_map_of_mem Sale.id hx)
  have hseq : sale.id = sid := by simpa using hsid
  exact beq_eq_false_iff_ne.mpr (by rw [← hseq]; exact hxne)

/-- Effect of the amend handler's `UPDATE sales ... WHERE id = ?` on the sold
totals: only the amended sale's merchandise moves, by the signed difference. -/
theorem liveSold_map_update (l : List Sale) (sid cid q : Int) (tp : Rat)
    (sale : Sale) (mid : Int)
    (hnd : (l.map Sale.id).Nodup)
    (hfind : l.find? (fun s => s.id == sid) = some sale) :
    liveSold (l.map (fun s =>
      if s.id == sid then
        { s with consumer_id := some cid, quantity_sold := q, total_price := tp }
      else s)) mid =
      liveSold l mid +
        (if sale.merchandise_id == mid then q - sale.quantity_sold else 0) := by
  have hsid : (sale.id == sid) = true := by simpa using List.find?_some hfind
  obtain ⟨l₁, l₂, rfl, hl₁⟩ := find?_decomp _ _ _ hfind
  have hl₂ := tail_misses_of_nodup l₁ l₂ sale sid hnd hsid
  rw [List.map_append, List.map_cons]
  rw [map_preserve_eq_self l₁ _ (fun x hx => by simp [hl₁ x hx])]
  rw [map_preserve_eq_self l₂ _ (fun x hx => by simp [hl₂ x hx])]
  rw [liveSold_append_cons, liveSold_append_cons]
  simp only [hsid, if_true]
  simp only [soldTo]
  by_cases hmm : (sale.merchandise_id == mid) = true
  · simp only [hmm, if_true]
    ring
  · have hmm' : (sale.merchandise_id == mid) = false := by simpa using hmm
    simp only [hmm', Bool.false_eq_true, if_false]
    ring

/-- Effect of the reversal handler's `DELETE FROM sales WHERE id = ?` on the
sold totals: only the deleted sale's contribution disappears. -/
theorem liveSold_filter_out (l : List Sale) (sid : Int) (sale : Sale) (mid : Int)
    (hnd : (l.map Sale.id).Nodup)
    (hfind : l.find? (fun s => s.id == sid) = some sale) :
    liveSold (l.filter (fun s => !(s.id == sid))) mid =
      liveSold l mid - soldTo mid sale := by
  have hsid : (sale.id == sid) = true := by simpa using List.find?_some hfind
  obtain ⟨l₁, l₂, rfl, hl₁⟩ := find?_decomp _ _ _ hfind
  have hl₂ := tail_misses_of_nodup l₁ l₂ sale sid hnd hsid
  rw [List.filter_append, List.filter_cons]
  rw [List.filter_eq_self.mpr (fun x hx => by simp [hl₁ x hx])]
  rw [List.filter_eq_self.mpr (fun x hx => by simp [hl₂ x hx])]
  simp only [hsid, Bool.not_true, Bool.false_eq_true, if_false]
  have hlhs : liveSold (l₁ ++ l₂) mid = liveSold l₁ mid + liveSold l₂ mid := by
    simp [liveSold, List.sum_append]
  rw [hlhs, liveSold_append_cons]
  ring

/-- A successful ledger mutation that subtracts `δ` from merchandise `tid`
while the live sold totals gain `δ` on `tid` keeps every merchandise row's
ledger total intact. -/
theorem merchAligned_of_adjust (db db' : DB) (tid δ : Int) (ts : String)
    (hm : db'.merchandise = db.merchandise.map (fun m =>
      if m.id == tid then
        { m with quantity := m.quantity - δ, updated_at := ts }
      else m))
    (hs : ∀ mid : Int, liveSold db'.sales mid =
      liveSold db.sales mid + (if tid == mid then δ else 0)) :
    MerchAligned db db' := by
  constructor
  · rw [hm]; exact List.length_map _ _
  · intro i hb ha
    have hget : db'.merchandise.get ⟨i, hb⟩ =
        (fun m => if m.id == tid then
          { m with quantity := m.quantity - δ, updated_at := ts } else m)
          (db.merchandise.get ⟨i, ha⟩) := by
      rw [List.get_of_eq hm ⟨i, hb⟩, List.get_map]
    rw [hget]
    set m := db.merchandise.get ⟨i, ha⟩ with hmdef
    by_cases hid : (m.id == tid) = true
    · have hid' : m.id = tid := by simpa using hid
      simp only [hid, if_true]
      refine ⟨by trivial, ?_⟩
      rw [hs]
      have htid : (tid == m.id) = true := by simp [hid']
      simp only [htid, if_true]
      ring
    · have hidf : (m.id == tid) = false := by simpa using hid
      simp only [hidf, Bool.false_eq_true, if_false]
      refine ⟨by trivial, ?_⟩
      rw [hs]
      have htid : (tid == m.id) = false := by
        have := beq_eq_false_iff_ne.mp hidf
        exact beq_eq_false_iff_ne.mpr (Ne.symm this)
      simp only [htid, Bool.false_eq_true, if_false]
      ring

theorem saleIdsOk_append (l : List Sale) (next : Int) (s : Sale)
    (hnd : (l.map Sale.id).Nodup) (hb : ∀ x ∈ l, x.id < next) (hs : s.id = next) :
    ((l ++ [s]).map Sale.id).Nodup ∧ ∀ x ∈ l ++ [s], x.id < next + 1 := by
  constructor
  · rw [List.map_append, List.nodup_append]
    refine ⟨hnd, by simp, ?_⟩
    intro a ha
    obtain ⟨x, hx, rfl⟩ := List.mem_map.mp ha
    intro hmem
    have hxeq : x.id = s.id := by simpa using hmem
    have := hb x hx
    omega
  · intro x hx
    rcases List.mem_append.mp hx with hmem | hmem
    · have := hb x hmem; omega
    · have hxs : x = s := by simpa using hmem
      subst hxs
      omega

theorem saleIdsOk_map (l : List Sale) (next : Int) (f : Sale → Sale)
    (hf : ∀ s, (f s).id = s.id)
    (hnd : (l.map Sale.id).Nodup) (hb : ∀ x ∈ l, x.id < next) :
    ((l.map f).map Sale.id).Nodup ∧ ∀ x ∈ l.map f, x.id < next := by
  have hmm : (l.map f).map Sale.id = l.map Sale.id := by
    rw [List.map_map]
    exact List.map_congr_left (fun a _ => hf a)
  refine ⟨by rw [hmm]; exact hnd, ?_⟩
  intro x hx
  obtain ⟨y, hy, rfl⟩ := List.mem_map.mp hx
  rw [hf y]
  exact hb y hy

theorem saleIdsOk_filter (l : List Sale) (next : Int) (p : Sale → Bool)
    (hnd : (l.map Sale.id).Nodup) (hb : ∀ x ∈ l, x.id < next) :
    ((l.filter p).map Sale.id).Nodup ∧ ∀ x ∈ l.filter p, x.id < next := by
  refine ⟨List.Nodup.sublist (List.Sublist.map Sale.id (List.filter_sublist l)) hnd, ?_⟩
  intro x hx
  exact hb x (List.mem_filter.mp hx).1

/-- One successful ledger operation preserves every merchandise row's ledger
total and the sale-id discipline. -/
theorem applyOp_aligned (db db' : DB) (op : LedgerOp) (msg : String)
    (hok : applyOp db op = (.ok msg, db')) (hwf : SaleIdsOk db) :
    MerchAligned db db' ∧ SaleIdsOk db' := by
  cases op with
  | record mid co q =>
    simp only [applyOp] at hok
    cases hm : findMerch db mid with
    | none => rw [record_sale_eq_noMerch db mid co q hm] at hok; simp at hok
    | some m =>
      cases co with
      | none => rw [record_sale_eq_noConsRef db mid q m hm] at hok; simp at hok
      | some cid =>
        cases hc : findConsumer db cid with
        | none => rw [record_sale_eq_badCons db mid cid q m hm hc] at hok; simp at hok
        | some c =>
          by_cases hlt : m.quantity < q
          · rw [record_sale_eq_conflict db mid cid q m c hm hc hlt] at hok; simp at hok
          · rw [record_sale_eq_ok db mid cid q m c hm hc hlt] at hok
            injection hok with hmsg hdb
            subst hdb
            constructor
            · apply merchAligned_of_adjust db _ mid q (nowString db)
              · rfl
              · intro x
                dsimp only
                rw [liveSold_append_single]
                rfl
            · obtain ⟨hnd, hb⟩ := hwf
              have h := saleIdsOk_append db.sales db.nextSaleId
                { id := db.nextSaleId, merchandise_id := mid,
                  consumer_id := some cid, quantity_sold := q,
                  unit_price := m.price, total_price := m.price * (q : Rat),
                  sale_date := nowString db } hnd hb rfl
              exact ⟨h.1, h.2⟩
  | amend sid qo co =>
    simp only [applyOp] at hok
    cases qo with
    | none => rw [update_sale_eq_noQty] at hok; simp at hok
    | some q =>
      by_cases hqle : q ≤ 0
      · rw [update_sale_eq_badQty db sid q co hqle] at hok; simp at hok
      · have hq : 0 < q := by omega
        cases co with
        | none => rw [update_sale_eq_noConsRef db sid q hq] at hok; simp at hok
        | some cid =>
          cases hc : findConsumer db cid with
          | none => rw [update_sale_eq_badCons db sid cid q hq hc] at hok; simp at hok
          | some c =>
            cases hs : findSale db sid with
            | none =>
              rw [update_sale_eq_noSale db sid cid q c hq hc hs] at hok; simp at hok
            | some sale =>
              cases hshort : stockShortB db sale q with
              | true =>
                rw [update_sale_eq_conflict db sid cid q sale c hq hc hs hshort] at hok
                simp at hok
              | false =>
                rw [update_sale_eq_ok db sid cid q sale c hq hc hs hshort] at hok
                injection hok with hmsg hdb
                subst hdb
                constructor
                · apply merchAligned_of_adjust db _ sale.merchandise_id
                    (q - sale.quantity_sold) (nowString db)
                  · rfl
                  · intro x
                    dsimp only
                    exact liveSold_map_update db.sales sid cid q
                      (sale.unit_price * (q : Rat)) sale x hwf.1 hs
                · obtain ⟨hnd, hb⟩ := hwf
                  have h := saleIdsOk_map db.sales db.nextSaleId
                    (fun s => if s.id == sid then
                      { s with consumer_id := some cid, quantity_sold := q,
                               total_price := sale.unit_price * (q : Rat) }
                      else s)
                    (fun s => by
                      dsimp only
                      by_cases hcase : (s.id == sid) = true
                      · rw [if_pos hcase]
                      · rw [if_neg hcase])
                    hnd hb
                  exact ⟨h.1, h.2⟩
  | reverse sid =>
    simp only [applyOp] at hok
    cases hs : findSale db sid with
    | none => rw [delete_sale_eq_noSale db sid hs] at hok; simp at hok
    | some sale =>
      rw [delete_sale_eq_ok db sid sale hs] at hok
      injection hok with hmsg hdb
      subst hdb
      constructor
      · apply merchAligned_of_adjust db _ sale.merchandise_id
          (-sale.quantity_sold) (nowString db)
        · show db.merchandise.map _ = db.merchandise.map _
          apply List.map_congr_left
          intro a _
          by_cases h : (a.id == sale.merchandise_id) = true
          · rw [if_pos h, if_pos h]
            have hq2 : a.quantity + sale.quantity_sold = a.quantity - -sale.quantity_sold := by
              ring
            rw [hq2]
          · rw [if_neg h, if_neg h]
        · intro x
          dsimp only
          rw [liveSold_filter_out db.sales sid sale x hwf.1 hs]
          simp only [soldTo]
          by_cases h : (sale.merchandise_id == x) = true
          · simp only [h, if_true]
            ring
          · have hf2 : (sale.merchandise_id == x) = false := by simpa using h
            simp only [hf2, Bool.false_eq_true, if_false]
            ring
      · obtain ⟨hnd, hb⟩ := hwf
        have h := saleIdsOk_filter db.sales db.nextSaleId
          (fun s => !(s.id == sid)) hnd hb
        exact ⟨h.1, h.2⟩

theorem merchAligned_refl (db : DB) : MerchAligned db db :=
  ⟨rfl, fun _ _ _ => ⟨rfl, rfl⟩⟩

theorem merchAligned_trans {a b c : DB}
    (h₁ : MerchAligned a b) (h₂ : MerchAligned b c) : MerchAligned a c := by
  obtain ⟨hl₁, hp₁⟩ := h₁
  obtain ⟨hl₂, hp₂⟩ := h₂
  refine ⟨hl₂.trans hl₁, ?_⟩
  intro i hc ha
  have hb : i < b.merchandise.length := by omega
  obtain ⟨hid₂, hq₂⟩ := hp₂ i hc hb
  obtain ⟨hid₁, hq₁⟩ := hp₁ i hb ha
  exact ⟨hid₂.trans hid₁, hq₂.trans hq₁⟩

theorem runOps_aligned (ops : List LedgerOp) (db db' : DB)
    (h : runOps db ops = .ok db') (hwf : SaleIdsOk db) :
    MerchAligned db db' ∧ SaleIdsOk db' := by
  induction ops generalizing db with
  | nil =>
    have : db = db' := by simpa [runOps] using h
    subst this
    exact ⟨merchAligned_refl db, hwf⟩
  | cons op rest ih =>
    simp only [runOps] at h
    cases happ : applyOp db op with
    | mk r dbn =>
      rw [happ] at h
      cases r with
      | ok msg =>
        simp only at h
        obtain ⟨hal, hwf'⟩ := applyOp_aligned db dbn op msg happ hwf
        obtain ⟨hal₂, hwf₂⟩ := ih dbn h hwf'
        exact ⟨merchAligned_trans hal hal₂, hwf₂⟩
      | error e => simp at h

theorem runOps_append (db : DB) (l₁ l₂ : List LedgerOp) (db₂ : DB)
    (h : runOps db (l₁ ++ l₂) = .ok db₂) :
    ∃ db₁, runOps db l₁ = .ok db₁ ∧ runOps db₁ l₂ = .ok db₂ := by
  induction l₁ generalizing db with
  | nil => exact ⟨db, rfl, by simpa using h⟩
  | cons op rest ih =>
    rw [List.cons_append] at h
    simp only [runOps] at h ⊢
    cases happ : applyOp db op with
    | mk r dbn =>
      try rw [happ] at h
      cases r with
      | ok msg =>
        have h' : runOps dbn (rest ++ l₂) = Except.ok db₂ := h
        obtain ⟨db₁, h1, h2⟩ := ih dbn h'
        exact ⟨db₁, h1, h2⟩
      | error e =>
        have h'' : (Except.error e : Except ApiError DB) = Except.ok db₂ := h
        cases h''

/-- C1: starting from a store with no sales (so each item's quantity is its
initial stock), after every prefix of a successful sequence of record, amend
and reverse operations, each merchandise row's quantity equals its initial
stock minus the sum of `quantity_sold` over the currently-existing sales
referencing it. -/
theorem ledger_stock_invariant (db₀ : DB) (h0 : db₀.sales = [])
    (ops₁ ops₂ : List LedgerOp) (db₂ : DB)
    (h : runOps db₀ (ops₁ ++ ops₂) = .ok db₂) :
    ∃ db₁, runOps db₀ ops₁ = .ok db₁ ∧
      db₁.merchandise.length = db₀.merchandise.length ∧
      ∀ i (h₁ : i < db₁.merchandise.length) (h₂ : i < db₀.merchandise.length),
        (db₁.merchandise.get ⟨i, h₁⟩).quantity =
          (db₀.merchandise.get ⟨i, h₂⟩).quantity -
            liveSold db₁.sales (db₁.merchandise.get ⟨i, h₁⟩).id := by
  have hwf : SaleIdsOk db₀ := by
    constructor
    · rw [h0]; exact List.nodup_nil
    · intro s hs
      rw [h0] at hs
      simp at hs
  obtain ⟨db₁, hrun₁, hrun₂⟩ := runOps_append db₀ ops₁ ops₂ db₂ h
  obtain ⟨⟨hlen, hp⟩, _⟩ := runOps_aligned ops₁ db₀ db₁ hrun₁ hwf
  refine ⟨db₁, hrun₁, hlen, ?_⟩
  intro i hi₁ hi₀
  obtain ⟨hid, hq⟩ := hp i hi₁ hi₀
  have hzero : liveSold db₀.sales ((db₀.merchandise.get ⟨i, hi₀⟩).id) = 0 := by
    rw [h0]
    exact liveSold_nil _
  omega

/-- C1 witness: record 3, amend to 5, then reverse on the sample store; after
the prefix of length 2 the single item's quantity is `10 - 5`. -/
theorem ledger_stock_invariant_witness :
    ∃ db₁, runOps sampleDB
        [LedgerOp.record 1 (some 1) 3, LedgerOp.amend 1 (some 5) (some 2)] = .ok db₁ ∧
      db₁.merchandise.length = sampleDB.merchandise.length ∧
      ∀ i (h₁ : i < db₁.merchandise.length) (h₂ : i < sampleDB.merchandise.length),
        (db₁.merchandise.get ⟨i, h₁⟩).quantity =
          (sampleDB.merchandise.get ⟨i, h₂⟩).quantity -
            liveSold db₁.sales (db₁.merchandise.get ⟨i, h₁⟩).id :=
  ledger_stock_invariant sampleDB rfl
    [LedgerOp.record 1 (some 1) 3, LedgerOp.amend 1 (some 5) (some 2)]
    [LedgerOp.reverse 1] _ rfl

/-! ## C9 — a malformed columnar archive leaves the store untouched -/

/-- C9: restoring an unreadable parquet archive answers `InvalidArgument` and
returns the previously active store unchanged — no table is dropped,
recreated or modified (the store file is only deleted after the archive has
been read successfully, `src/app.py:451-472`). -/
theorem restore_malformed_archive_untouched (db : DB) :
    restore_database db (.parquet none) =
      (.error (.invalidArgument "유효하지 않은 Parquet 백업 파일입니다"), db) := rfl

/-! ## C8 — columnar backup/restore round trip -/

theorem decodeMerch_merchPayload (now : String) (ids : List Int) (m : Merch) :
    decodeMerch now ids (merchPayload m) = some m := by
  obtain ⟨i, nm, ds, q, pr, ca, ua⟩ := m
  cases ds <;> rfl

theorem decodeConsumer_consumerPayload (ids : List Int) (c : Consumer) :
    decodeConsumer ids (consumerPayload c) = some c := by
  obtain ⟨i, nm, ph, ad, nt, ca, ua⟩ := c
  cases ph <;> cases ad <;> cases nt <;> cases ca <;> cases ua <;> rfl

theorem decodeSale_salePayload (now : String) (ids : List Int) (s : Sale) :
    decodeSale now ids (salePayload s) = some s := by
  obtain ⟨i, mi, ci, qs, up, tp, sd⟩ := s
  cases ci <;> rfl

theorem restoreRows_merch (now : String) (l : List Merch) (acc : List Merch) :
    restoreRows merchCols Merch.id (decodeMerch now) (l.map merchPayload) acc =
      some (acc ++ l) := by
  induction l generalizing acc with
  | nil => simp [restoreRows]
  | cons m t ih =>
    rw [List.map_cons]
    have hne : (restoreColumns (merchPayload m) merchCols).isEmpty = false := rfl
    simp only [restoreRows, hne, Bool.false_eq_true, if_false,
      decodeMerch_merchPayload]
    rw [ih]
    simp

theorem restoreRows_consumer (l : List Consumer) (acc : List Consumer) :
    restoreRows consumerCols Consumer.id decodeConsumer
      (l.map consumerPayload) acc = some (acc ++ l) := by
  induction l generalizing acc with
  | nil => simp [restoreRows]
  | cons c t ih =>
    rw [List.map_cons]
    have hne : (restoreColumns (consumerPayload c) consumerCols).isEmpty = false := rfl
    simp only [restoreRows, hne, Bool.false_eq_true, if_false,
      decodeConsumer_consumerPayload]
    rw [ih]
    simp

theorem restoreRows_sale (now : String) (l : List Sale) (acc : List Sale) :
    restoreRows saleCols Sale.id (decodeSale now) (l.map salePayload) acc =
      some (acc ++ l) := by
  induction l generalizing acc with
  | nil => simp [restoreRows]
  | cons s t ih =>
    rw [List.map_cons]
    have hne : (restoreColumns (salePayload s) saleCols).isEmpty = false := rfl
    simp only [restoreRows, hne, Bool.false_eq_true, if_false,
      decodeSale_salePayload]
    rw [ih]
    simp

theorem filterTag_same {β : Type} (t : String) (f : β → Payload) (l : List β) :
    (l.map (fun b => (t, f b))).filter (fun r => r.1 == t) =
      l.map (fun b => (t, f b)) := by
  apply List.filter_eq_self.mpr
  intro a ha
  obtain ⟨b, hb, rfl⟩ := List.mem_map.mp ha
  simp

theorem filterTag_other {β : Type} (t t' : String) (f : β → Payload) (l : List β)
    (h : (t == t') = false) :
    (l.map (fun b => (t, f b))).filter (fun r => r.1 == t') = [] := by
  apply List.filter_eq_nil_iff.mpr
  intro a ha
  obtain ⟨b, hb, rfl⟩ := List.mem_map.mp ha
  simp [h]

theorem rowsFor_backup_merch (db : DB) :
    rowsFor (backup_parquet db) "merchandise" = db.merchandise.map merchPayload := by
  unfold rowsFor backup_parquet
  rw [List.filter_append, List.filter_append]
  rw [filterTag_same, filterTag_other "consumers" "merchandise" _ _ rfl,
    filterTag_other "sales" "merchandise" _ _ rfl]
  simp [List.map_map, Function.comp]

theorem rowsFor_backup_cons (db : DB) :
    rowsFor (backup_parquet db) "consumers" = db.consumers.map consumerPayload := by
  unfold rowsFor backup_parquet
  rw [List.filter_append, List.filter_append]
  rw [filterTag_same, filterTag_other "merchandise" "consumers" _ _ rfl,
    filterTag_other "sales" "consumers" _ _ rfl]
  simp [List.map_map, Function.comp]

theorem rowsFor_backup_sales (db : DB) :
    rowsFor (backup_parquet db) "sales" = db.sales.map salePayload := by
  unfold rowsFor backup_parquet
  rw [List.filter_append, List.filter_append]
  rw [filterTag_same, filterTag_other "merchandise" "sales" _ _ rfl,
    filterTag_other "consumers" "sales" _ _ rfl]
  simp [List.map_map, Function.comp]

/-- C8: a columnar backup of any store, restored over any prior store,
succeeds and reproduces the backed-up merchandise, consumer and sale rows
exactly (all payload fields come from the live schema, so nothing is
dropped); the result does not depend on the prior store's contents — restore
replaces, it does not merge. -/
theorem backup_restore_round_trip (db prior : DB) :
    backup_database db "parquet" = .ok (.parquet (backup_parquet db)) ∧
    restore_database prior (.parquet (some (backup_parquet db))) =
      (.ok "데이터베이스를 복원했습니다",
       { merchandise := db.merchandise, consumers := db.consumers,
         sales := db.sales,
         nextSaleId := (db.sales.map Sale.id).foldr max 0 + 1,
         now := prior.now }) := by
  constructor
  · rfl
  · simp only [restore_database]
    rw [rowsFor_backup_merch, rowsFor_backup_cons, rowsFor_backup_sales]
    rw [restoreRows_merch, restoreRows_consumer, restoreRows_sale]
    simp

/-! ## C7 — explicit date-range history queries -/

theorem filter_key_singleton {α : Type} (key : α → Int) (l : List α)
    (hnd : (l.map key).Nodup) (a : α) (ha : a ∈ l) (tid : Int)
    (hk : key a = tid) :
    l.filter (fun x => key x == tid) = [a] := by
  induction l with
  | nil => cases ha
  | cons b t ih =>
    have hnd' : (key b :: t.map key).Nodup := by simpa using hnd
    rw [List.filter_cons]
    rcases List.mem_cons.mp ha with rfl | hmem
    · rw [if_pos (by simp [hk])]
      have htail : t.filter (fun x => key x == tid) = [] := by
        apply List.filter_eq_nil_iff.mpr
        intro x hx
        have hxne : key x ≠ key a := fun he =>
          (List.nodup_cons.mp hnd').1 (he ▸ List.mem_map_of_mem key hx)
        simp only [beq_iff_eq]
        rw [← hk]
        exact fun hcontra => hxne hcontra
      rw [htail]
    · have hbne : key b ≠ tid := by
        intro he
        apply (List.nodup_cons.mp hnd').1
        rw [he, ← hk]
        exact List.mem_map_of_mem key hmem
      rw [if_neg (by simpa using hbne)]
      exact ih (List.nodup_cons.mp hnd').2 hmem

theorem filter_key_nil_or_singleton {α : Type} (key : α → Int) (l : List α)
    (hnd : (l.map key).Nodup) (tid : Int) :
    l.filter (fun x => key x == tid) = [] ∨
      ∃ a, l.filter (fun x => key x == tid) = [a] := by
  induction l with
  | nil => exact Or.inl rfl
  | cons b t ih =>
    have hnd' : (key b :: t.map key).Nodup := by simpa using hnd
    rw [List.filter_cons]
    by_cases hb : (key b == tid) = true
    · rw [if_pos hb]
      refine Or.inr ⟨b, ?_⟩
      have hbeq : key b = tid := by simpa using hb
      have htail : t.filter (fun x => key x == tid) = [] := by
        apply List.filter_eq_nil_iff.mpr
        intro x hx
        have hxne : key x ≠ key b := fun he =>
          (List.nodup_cons.mp hnd').1 (he ▸ List.mem_map_of_mem key hx)
        simp only [beq_iff_eq]
        rw [← hbeq]
        exact fun hcontra => hxne hcontra
      rw [htail]
    · rw [if_neg hb]
      exact ih (List.nodup_cons.mp hnd').2

theorem flatMap_eq_self {α : Type} (l : List α) (f : α → List α)
    (h : ∀ a ∈ l, f a = [a]) : l.flatMap f = l := by
  induction l with
  | nil => rfl
  | cons b t ih =>
    rw [List.flatMap_cons, h b (by simp), ih (fun a ha => h a (by simp [ha]))]
    rfl

/-- Under referential integrity and distinct primary keys, each sale yields
exactly one row of the joined history listing, carrying that sale. -/
theorem joinRows_map_sale (db : DB) (hm : MerchIdsNodup db)
    (hc : ConsumerIdsNodup db) (hri : SalesRefMerch db) :
    (joinRows db).map JoinedRow.sale = db.sales := by
  unfold joinRows
  rw [List.map_flatMap]
  apply flatMap_eq_self
  intro s hs
  obtain ⟨m, hmmem, hmid⟩ := hri s hs
  rw [filter_key_singleton Merch.id db.merchandise hm m hmmem s.merchandise_id hmid]
  rw [List.flatMap_singleton]
  rcases hcid : s.consumer_id with _ | cid
  · simp [consumerMatches, hcid]
  · rcases filter_key_nil_or_singleton Consumer.id db.consumers hc cid with hnil | ⟨c, hone⟩
    · simp [consumerMatches, hcid, hnil]
    · simp [consumerMatches, hcid, hone]

theorem map_filter_comm {α β : Type} (f : α → β) (p : β → Bool) (l : List α) :
    (l.filter (fun a => p (f a))).map f = (l.map f).filter p := by
  induction l with
  | nil => rfl
  | cons b t ih =>
    rw [List.filter_cons, List.map_cons, List.filter_cons]
    by_cases h : p (f b) = true
    · rw [if_pos h, if_pos h, List.map_cons, ih]
    · rw [if_neg h, if_neg h, ih]

theorem sortSales_perm (l : List JoinedRow) : (sortSales l).Perm l :=
  List.mergeSort_perm l _

theorem sortSales_sorted (l : List JoinedRow) : DateSortedDesc (sortSales l) := by
  have htrans : ∀ a b c : JoinedRow,
      (fun a b : JoinedRow => decide (b.sale.sale_date ≤ a.sale.sale_date)) a b = true →
      (fun a b : JoinedRow => decide (b.sale.sale_date ≤ a.sale.sale_date)) b c = true →
      (fun a b : JoinedRow => decide (b.sale.sale_date ≤ a.sale.sale_date)) a c = true := by
    intro a b c hab hbc
    simp only [decide_eq_true_eq] at *
    exact le_trans hbc hab
  have htotal : ∀ a b : JoinedRow,
      ((fun a b : JoinedRow => decide (b.sale.sale_date ≤ a.sale.sale_date)) a b ||
       (fun a b : JoinedRow => decide (b.sale.sale_date ≤ a.sale.sale_date)) b a) = true := by
    intro a b
    simp only [Bool.or_eq_true, decide_eq_true_eq]
    exact le_total b.sale.sale_date a.sale.sale_date
  have h := List.sorted_mergeSort htrans htotal l
  exact h.imp (fun hab => by simpa using hab)

/-- C7: with an explicit start and end date and a well-formed store (distinct
primary keys, sales referencing existing merchandise), the history query
returns exactly the sales whose timestamp lies in the inclusive window
`[start 00:00:00, end 23:59:59]`, ordered by sale timestamp descending, and
the named period is ignored; a malformed date fails with `InvalidArgument`. -/
theorem sales_history_range_spec (db : DB)
    (hm : MerchIdsNodup db) (hc : ConsumerIdsNodup db) (hri : SalesRefMerch db) :
    (∀ period period' s e ds de, parse_date s = some ds → parse_date e = some de →
      ∃ l, get_sales db period (some s) (some e) = .ok l ∧
        (l.map JoinedRow.sale).Perm
          (db.sales.filter (saleInWindow (some ds) (some de))) ∧
        DateSortedDesc l ∧
        get_sales db period' (some s) (some e) =
          get_sales db period (some s) (some e)) ∧
    (∀ period s e, parse_date s = none ∨ parse_date e = none →
      get_sales db period (some s) (some e) =
        .error (.invalidArgument "잘못된 날짜 형식입니다. YYYY-MM-DD 형식을 사용하세요.")) := by
  constructor
  · intro period period' s e ds de hs he
    have heq : ∀ p0, get_sales db p0 (some s) (some e) =
        .ok (sortSales ((joinRows db).filter (rangeCond (some ds) (some de)))) := by
      intro p0
      unfold get_sales
      simp [parseBound, hs, he]
    refine ⟨_, heq period, ?_, sortSales_sorted _, (heq period').trans (heq period).symm⟩
    have hperm := (sortSales_perm ((joinRows db).filter
      (rangeCond (some ds) (some de)))).map JoinedRow.sale
    rw [show rangeCond (some ds) (some de) =
        (fun r => saleInWindow (some ds) (some de) (JoinedRow.sale r)) from rfl] at hperm
    rw [map_filter_comm JoinedRow.sale (saleInWindow (some ds) (some de))
      (joinRows db)] at hperm
    rw [joinRows_map_sale db hm hc hri] at hperm
    exact hperm
  · intro period s e hbad
    unfold get_sales
    rcases hbad with hnone | hnone <;> simp [parseBound, hnone]

/-- C7 witness: on the sample store the January 2024 window returns exactly
the January sale, sorted, regardless of the period parameter; a malformed
start date is rejected. -/
theorem sales_history_range_spec_witness :
    (∃ l, get_sales sampleDB2 "all" (some "2024-01-01") (some "2024-01-31") = .ok l ∧
      (l.map JoinedRow.sale).Perm
        (sampleDB2.sales.filter (saleInWindow (some (2024, 1, 1)) (some (2024, 1, 31)))) ∧
      DateSortedDesc l ∧
      get_sales sampleDB2 "last_month" (some "2024-01-01") (some "2024-01-31") =
        get_sales sampleDB2 "all" (some "2024-01-01") (some "2024-01-31")) ∧
    get_sales sampleDB2 "all" (some "bad") (some "2024-01-31") =
      .error (.invalidArgument "잘못된 날짜 형식입니다. YYYY-MM-DD 형식을 사용하세요.") :=
  ⟨(sales_history_range_spec sampleDB2 (by unfold MerchIdsNodup; decide)
      (by unfold ConsumerIdsNodup; decide) (by unfold SalesRefMerch; decide)).1
      "all" "last_month" "2024-01-01" "2024-01-31" (2024, 1, 1) (2024, 1, 31)
      (by decide) (by decide),
   (sales_history_range_spec sampleDB2 (by unfold MerchIdsNodup; decide)
      (by unfold ConsumerIdsNodup; decide) (by unfold SalesRefMerch; decide)).2
      "all" "bad" "2024-01-31" (Or.inl (by decide))⟩

end SalesManager
